import Mathlib

/-!
# Rotating client certificate worker: embedding and properties

Source files embedded here:

* `greeting.go`: the workflow function `GreetSomeone`;
* `worker/main.go`: `main`, and the function literal it installs as
  `tls.Config.GetClientCertificate`.

Go strings and byte slices are byte sequences.  Calls into the Go standard
library and the Temporal SDK are external: the file system is a storage
state that answers `os.ReadFile`, the PEM and X.509 parser `tls.X509KeyPair`
is a parameter of the model, and the outcomes of `client.Dial` and of the
worker `Run` are inputs of `main`.  Every external call a function performs
is recorded, in program order, as an `Event`.
-/

set_option linter.dupNamespace false

namespace RotationDemo

/-! ## Data model -/

/-- A Go string: an immutable sequence of bytes. -/
abbrev GoString := List UInt8

/-- A Go byte slice, as returned by `os.ReadFile`. -/
abbrev Bytes := List UInt8

/-- The bytes of a Go string literal (Go source text is UTF-8). -/
def lit (s : String) : GoString := s.data.flatMap String.utf8EncodeChar

/-- Go `strings.HasPrefix` on byte strings. -/
def startsWith : GoString → GoString → Bool
  | _, [] => true
  | [], _ :: _ => false
  | a :: as, b :: bs => a == b && startsWith as bs

/-- Go `strings.Contains`: `sub` occurs in `s` as a contiguous byte sequence. -/
def Contains : GoString → GoString → Bool
  | [], sub => sub.isEmpty
  | a :: as, sub => startsWith (a :: as) sub || Contains as sub

/-- The errno `ENOENT` (no such file or directory). -/
def ENOENT : Nat := 2

/-- The errno `EACCES` (permission denied). -/
def EACCES : Nat := 13

/-- A Go `*fs.PathError`: the operation, the path and the errno of a failed
file operation. -/
structure PathError where
  Op : GoString
  Path : GoString
  Err : Nat
  deriving DecidableEq, Repr

/-- Go error values reaching this program: the `*fs.PathError` of a failed
`os.ReadFile`, and plain message errors (`errors.New`, `fmt.Errorf`) such as
those of `tls.X509KeyPair`, of `client.Dial` and of the worker. -/
inductive GoError
  | path (e : PathError)
  | errorString (msg : GoString)
  deriving DecidableEq, Repr

/-- Go `errors.Is(err, fs.ErrNotExist)`. -/
def GoError.IsNotExist : GoError → Bool
  | .path e => e.Err == ENOENT
  | .errorString _ => false

deriving instance DecidableEq for Except

/-- A `tls.Certificate` value, field by field. -/
structure Certificate where
  Certificate : List Bytes
  PrivateKey : Bytes
  SupportedSignatureAlgorithms : List Nat
  OCSPStaple : Bytes
  SignedCertificateTimestamps : List Bytes
  Leaf : Option Bytes
  deriving DecidableEq, Repr

/-- A `tls.CertificateRequestInfo`, the handshake information handed to the
callback. -/
structure CertificateRequestInfo where
  AcceptableCAs : List Bytes
  SignatureSchemes : List Nat
  Version : Nat
  deriving DecidableEq, Repr

/-- Storage state: for every path, what `os.ReadFile` answers in this state,
the content of the file or the error of the failed read. -/
structure Storage where
  ReadFile : GoString → Except PathError Bytes

/-- The file at `path` does not exist in storage state `s`: reading it fails
with errno `ENOENT`. -/
def Storage.missing (s : Storage) (path : GoString) : Bool :=
  match s.ReadFile path with
  | .ok _ => false
  | .error e => e.Err == ENOENT

/-- Storage `s` after `content` was written to `path`. -/
def Storage.write (s : Storage) (path : GoString) (content : Bytes) : Storage :=
  ⟨fun q => if q = path then .ok content else s.ReadFile q⟩

/-- Storage `s` after the file at `path` was deleted. -/
def Storage.remove (s : Storage) (path : GoString) : Storage :=
  ⟨fun q => if q = path then .error ⟨lit "open", path, ENOENT⟩ else s.ReadFile q⟩

/-- The empty storage: no file exists. -/
def Storage.empty : Storage :=
  ⟨fun q => .error ⟨lit "open", q, ENOENT⟩⟩

/-- The type of `tls.X509KeyPair`: parses a certificate PEM block and a key
PEM block into a certificate, or fails.  The parser belongs to the Go
standard library; the model takes it as a parameter. -/
abbrev KeyPairParser := Bytes → Bytes → Except GoError Certificate

/-- Go standard library `tls.LoadX509KeyPair(certFile, keyFile)`: reads the
certificate file, then the key file, returning the first read error, and
parses the two blocks with `X509KeyPair`. -/
def LoadX509KeyPair (X509KeyPair : KeyPairParser) (s : Storage)
    (certFile keyFile : GoString) : Except GoError Certificate :=
  match s.ReadFile certFile with
  | .error err => .error (.path err)
  | .ok certPEMBlock =>
    match s.ReadFile keyFile with
    | .error err => .error (.path err)
    | .ok keyPEMBlock => X509KeyPair certPEMBlock keyPEMBlock

/-- External calls performed by the program, recorded in program order. -/
inductive Event
  /-- Call of `log.Println(msg)`; the standard logger adds a clock header. -/
  | logPrintln (msg : GoString)
  /-- Call of `tls.LoadX509KeyPair(certFile, keyFile)`. -/
  | loadX509KeyPair (certFile keyFile : GoString)
  /-- Call of `workflow.GetLogger(ctx).Info(msg, key, value)`. -/
  | loggerInfo (msg key value : GoString)
  /-- Call of `client.Dial` with the host and namespace options. -/
  | clientDial (hostPort ns : GoString)
  /-- Call of `temporalClient.Close()`. -/
  | clientClose
  /-- Call of `worker.New(temporalClient, taskQueue, worker.Options{})`. -/
  | workerNew (taskQueue : GoString)
  /-- Call of `w.RegisterWorkflow(app.GreetSomeone)`. -/
  | registerWorkflow (name : GoString)
  /-- Call of `w.Run(worker.InterruptCh())`. -/
  | workerRun
  /-- Call of `log.Fatalln(msg, err)`: prints, then calls `os.Exit(1)`. -/
  | logFatalln (msg : GoString) (err : GoError)
  /-- Call of `os.Exit(code)`: the process ends at once. -/
  | osExit (code : Nat)
  deriving DecidableEq, Repr

/-! ## `greeting.go` -/

/-- A `workflow.Context`; `GreetSomeone` uses it only to obtain its logger. -/
structure Context where
  workflowID : GoString
  deriving DecidableEq, Repr

/-- Embedding of `GreetSomeone(ctx, name)`: the logger call, then the
returned string and error (`none` is the nil error). -/
def GreetSomeone (_ctx : Context) (name : GoString) : List Event × GoString × Option GoError :=
  ([.loggerInfo (lit "GreetSomeone workflow started.") (lit "name") name],
    lit "Hello " ++ name ++ lit "!", none)

/-! ## `worker/main.go`: the `GetClientCertificate` callback -/

/-- The variables of `main` captured by the callback function literal. -/
structure Closure where
  clientCertPath : GoString
  clientKeyPath : GoString
  deriving DecidableEq, Repr

/-- The process environment answering `os.Getenv` (unset names give the
empty string). -/
abbrev Environ := GoString → GoString

/-- Lines 18 and 19 of `main`: the two paths are read from the environment
once, before the callback is installed. -/
def captured (getenv : Environ) : Closure :=
  ⟨getenv (lit "TEMPORAL_TLS_CERT"), getenv (lit "TEMPORAL_TLS_KEY")⟩

/-- What the callback acts on: the storage state, and the external calls
made so far. -/
structure World where
  storage : Storage
  trace : List Event

/-- The pair `(*tls.Certificate, error)` returned by the callback; `none` is
nil. -/
structure Result where
  cert : Option Certificate
  err : Option GoError
  deriving DecidableEq, Repr

/-- The message the callback logs. -/
def loadingMessage : GoString := lit "GetClientCertificate: loading X509 client cert and key"

/-- Embedding of the function literal assigned to `GetClientCertificate`
(`main.go`, lines 27-34): log, load the key pair from the two captured
paths, return `(nil, err)` on failure and `(&cert, nil)` on success.  The
closure variables and the world after the call are returned with the
result. -/
def GetClientCertificate (X509KeyPair : KeyPairParser) (env : Closure) (w : World)
    (_info : CertificateRequestInfo) : (Closure × World) × Result :=
  let w1 : World := ⟨w.storage, w.trace ++ [.logPrintln loadingMessage]⟩
  let w2 : World := ⟨w1.storage, w1.trace ++ [.loadX509KeyPair env.clientCertPath env.clientKeyPath]⟩
  match LoadX509KeyPair X509KeyPair w1.storage env.clientCertPath env.clientKeyPath with
  | .error err => ((env, w2), ⟨none, some err⟩)
  | .ok cert => ((env, w2), ⟨some cert, none⟩)

/-- What happens around the provider between process start and shutdown:
the files at rest are replaced from outside (rotation), or the TLS layer
starts a handshake and invokes the callback. -/
inductive Step
  | rotate (s : Storage)
  | handshake (info : CertificateRequestInfo)

/-- Runs a sequence of steps from a closure and a world, collecting the
result of every callback invocation in order. -/
def exec (X509KeyPair : KeyPairParser) : Closure × World → List Step → (Closure × World) × List Result
  | st, [] => (st, [])
  | (env, w), .rotate s :: rest => exec X509KeyPair (env, ⟨s, w.trace⟩) rest
  | (env, w), .handshake info :: rest =>
    let r := GetClientCertificate X509KeyPair env w info
    let rs := exec X509KeyPair r.1 rest
    (rs.1, r.2 :: rs.2)

/-- The result a load outcome turns into at the callback boundary. -/
def Result.ofLoad : Except GoError Certificate → Result
  | .error err => ⟨none, some err⟩
  | .ok cert => ⟨some cert, none⟩

/-- The events among `evs` that are calls of `tls.LoadX509KeyPair`. -/
def loadCalls (evs : List Event) : List Event :=
  evs.filter fun e => match e with
    | .loadX509KeyPair _ _ => true
    | _ => false

/-- The messages of the `log.Println` calls among `evs`. -/
def logged (evs : List Event) : List GoString :=
  evs.filterMap fun e => match e with
    | .logPrintln msg => some msg
    | _ => none

/-- A credential version at rest: the bytes of the certificate file and of
the key file. -/
structure CredentialVersion where
  certPEM : Bytes
  keyPEM : Bytes
  deriving DecidableEq, Repr

/-- Storage `s` holds version `v` at the location of `env`: reading the
certificate path gives the certificate bytes of `v`, reading the key path
its key bytes. -/
def Storage.holds (s : Storage) (env : Closure) (v : CredentialVersion) : Prop :=
  s.ReadFile env.clientCertPath = .ok v.certPEM ∧ s.ReadFile env.clientKeyPath = .ok v.keyPEM

instance (s : Storage) (env : Closure) (v : CredentialVersion) : Decidable (s.holds env v) := by
  unfold Storage.holds
  infer_instance

/-- Storage `s` after version `v` was written to the location of `env`:
certificate file first, key file second. -/
def Storage.writeVersion (s : Storage) (env : Closure) (v : CredentialVersion) : Storage :=
  (s.write env.clientCertPath v.certPEM).write env.clientKeyPath v.keyPEM

/-- A stand-in for `tls.X509KeyPair` used to evaluate the model on concrete
storage states: it accepts any two non-empty blocks and keeps their bytes. -/
def sampleX509KeyPair : KeyPairParser := fun certPEMBlock keyPEMBlock =>
  if certPEMBlock.isEmpty then
    .error (.errorString (lit "tls: failed to find any PEM data in certificate input"))
  else if keyPEMBlock.isEmpty then
    .error (.errorString (lit "tls: failed to find any PEM data in key input"))
  else .ok ⟨[certPEMBlock], keyPEMBlock, [], [], [], none⟩

/-- The external calls one invocation of the callback adds to the trace. -/
def emitted (X509KeyPair : KeyPairParser) (env : Closure) (w : World)
    (info : CertificateRequestInfo) : List Event :=
  (GetClientCertificate X509KeyPair env w info).1.2.trace.drop w.trace.length

/-- One rotation followed by one handshake: the storage state after the
write, the credential version written, the credential that version parses
to, and the handshake information of the invocation that follows. -/
structure Rotation where
  storage : Storage
  version : CredentialVersion
  credential : Certificate
  info : CertificateRequestInfo

/-- The steps of a sequence of rotations with one callback invocation after
each write. -/
def schedule : List Rotation → List Step
  | [] => []
  | r :: rest => .rotate r.storage :: .handshake r.info :: schedule rest

/-- The file contents at the location of `env` differ between `s1` and
`s2`: reading the certificate path or reading the key path answers
differently. -/
def contentsDiffer (env : Closure) (s1 s2 : Storage) : Prop :=
  s1.ReadFile env.clientCertPath ≠ s2.ReadFile env.clientCertPath ∨
    s1.ReadFile env.clientKeyPath ≠ s2.ReadFile env.clientKeyPath

instance (env : Closure) (s1 s2 : Storage) : Decidable (contentsDiffer env s1 s2) := by
  unfold contentsDiffer
  infer_instance

/-- The reasons of the specification for a failed credential load. -/
inductive Reason
  | NotFound
  | Unreadable
  | Malformed
  deriving DecidableEq, Repr

/-- The reason the specification (section 4.1) gives a failed load, in its
order: an artifact that is missing is `NotFound`, one that exists and cannot
be read is `Unreadable`, a pair that cannot be parsed is `Malformed`.  The
program has no such classification; the callback returns the Go error as it
is, and this function reads the reason off that error. -/
def credentialLoadReason : GoError → Reason
  | .path e => if e.Err = ENOENT then .NotFound else .Unreadable
  | .errorString _ => .Malformed

/-! ### Concrete values used to evaluate the model -/

/-- A credential location with two distinct paths. -/
def sampleEnv : Closure := ⟨lit "/certs/tls.crt", lit "/certs/tls.key"⟩

/-- A handshake information value. -/
def sampleInfo : CertificateRequestInfo := ⟨[], [0x0804], 0x0304⟩

/-- Another handshake information value. -/
def otherInfo : CertificateRequestInfo := ⟨[lit "ca"], [0x0403], 0x0303⟩

/-- First credential version. -/
def version1 : CredentialVersion := ⟨lit "CERT-1", lit "KEY-1"⟩

/-- Second credential version. -/
def version2 : CredentialVersion := ⟨lit "CERT-2", lit "KEY-2"⟩

/-- What `sampleX509KeyPair` parses the first version to. -/
def credential1 : Certificate := ⟨[lit "CERT-1"], lit "KEY-1", [], [], [], none⟩

/-- What `sampleX509KeyPair` parses the second version to. -/
def credential2 : Certificate := ⟨[lit "CERT-2"], lit "KEY-2", [], [], [], none⟩

/-- Storage after the first version was written to the sample location. -/
def storage1 : Storage := Storage.empty.writeVersion sampleEnv version1

/-- Storage after the second version was written over the first. -/
def storage2 : Storage := storage1.writeVersion sampleEnv version2

/-- Storage with the first certificate present and the key file deleted. -/
def storageNoKey1 : Storage := storage1.remove sampleEnv.clientKeyPath

/-- Storage with the second certificate present and the key file deleted. -/
def storageNoKey2 : Storage := storage2.remove sampleEnv.clientKeyPath

/-- Two rotations at the sample location, each followed by a handshake. -/
def sampleRotations : List Rotation :=
  [⟨storage1, version1, credential1, sampleInfo⟩, ⟨storage2, version2, credential2, otherInfo⟩]

/-- The read error of the deleted key file at the sample location. -/
def keyNotExist : PathError := ⟨lit "open", lit "/certs/tls.key", ENOENT⟩

/-! ## `worker/main.go`: `main` -/

/-- The running `main`: the external calls made so far and the calls
registered with `defer`, most recent first. -/
structure Proc where
  trace : List Event
  deferred : List Event

/-- How the process ended: the complete trace and the exit code. -/
structure Exit where
  trace : List Event
  code : Nat
  deriving DecidableEq, Repr

/-- Go `log.Fatalln(msg, err)`: `Println` followed by `os.Exit(1)`.  `os.Exit`
ends the process immediately; deferred calls are not run. -/
def logFatalln (p : Proc) (msg : GoString) (err : GoError) : Exit :=
  ⟨p.trace ++ [.logFatalln msg err, .osExit 1], 1⟩

/-- Return from `main`: the deferred calls run, most recent first, and the
process exits with code 0. -/
def returnFromMain (p : Proc) : Exit :=
  ⟨p.trace ++ p.deferred, 0⟩

/-- Go `defer call`: registers `call` to run when the function returns. -/
def Proc.defer (p : Proc) (call : Event) : Proc :=
  ⟨p.trace, call :: p.deferred⟩

/-- Performs the external call `call`. -/
def Proc.call (p : Proc) (call : Event) : Proc :=
  ⟨p.trace ++ [call], p.deferred⟩

/-- Embedding of `main` (`main.go`, lines 14-51).  `dialErr` is the error
returned by `client.Dial` and `runErr` the error returned by `w.Run`
(`none` is nil: `Run` returned after the interrupt). -/
def main (getenv : Environ) (dialErr runErr : Option GoError) : Exit :=
  let hostPort := getenv (lit "TEMPORAL_ADDRESS")
  let ns := getenv (lit "TEMPORAL_NAMESPACE")
  let p0 : Proc := (⟨[], []⟩ : Proc).call (.clientDial hostPort ns)
  match dialErr with
  | some err => logFatalln p0 (lit "Unable to connect to Temporal Cloud.") err
  | none =>
    let p1 := p0.defer .clientClose
    let p2 := p1.call (.workerNew (lit "greeting-tasks"))
    let p3 := p2.call (.registerWorkflow (lit "GreetSomeone"))
    let p4 := p3.call .workerRun
    match runErr with
    | some err => logFatalln p4 (lit "Unable to start worker") err
    | none => returnFromMain p4

/-- Number of times the connection handle is closed in a trace. -/
def closeCount (evs : List Event) : Nat := evs.count .clientClose

/-! ## Properties -/

/-! ### Shared lemmas -/

theorem GetClientCertificate_result (X : KeyPairParser) (env : Closure) (w : World)
    (info : CertificateRequestInfo) :
    (GetClientCertificate X env w info).2 =
      Result.ofLoad (LoadX509KeyPair X w.storage env.clientCertPath env.clientKeyPath) := by
  unfold GetClientCertificate Result.ofLoad
  dsimp only
  cases LoadX509KeyPair X w.storage env.clientCertPath env.clientKeyPath <;> rfl

theorem GetClientCertificate_state (X : KeyPairParser) (env : Closure) (w : World)
    (info : CertificateRequestInfo) :
    (GetClientCertificate X env w info).1 =
      (env, ⟨w.storage, w.trace ++
        [.logPrintln loadingMessage, .loadX509KeyPair env.clientCertPath env.clientKeyPath]⟩) := by
  unfold GetClientCertificate
  dsimp only
  cases LoadX509KeyPair X w.storage env.clientCertPath env.clientKeyPath <;> simp

theorem emitted_eq (X : KeyPairParser) (env : Closure) (w : World)
    (info : CertificateRequestInfo) :
    emitted X env w info =
      [.logPrintln loadingMessage, .loadX509KeyPair env.clientCertPath env.clientKeyPath] := by
  simp [emitted, GetClientCertificate_state]

theorem Result.ofLoad_injective : Function.Injective Result.ofLoad := by
  intro a b h
  cases a <;> cases b <;> simp [Result.ofLoad] at h <;> simp [h]

theorem exec_append (X : KeyPairParser) (st : Closure × World) (a b : List Step) :
    exec X st (a ++ b) =
      ((exec X (exec X st a).1 b).1, (exec X st a).2 ++ (exec X (exec X st a).1 b).2) := by
  induction a generalizing st with
  | nil => simp [exec]
  | cons x xs ih =>
    obtain ⟨env, w⟩ := st
    cases x with
    | rotate s => simp [exec, ih]
    | handshake info => simp [exec, ih]

theorem exec_closure (X : KeyPairParser) (env : Closure) (w : World) (steps : List Step) :
    (exec X (env, w) steps).1.1 = env := by
  induction steps generalizing w with
  | nil => simp [exec]
  | cons x xs ih =>
    cases x with
    | rotate s => simp [exec, ih]
    | handshake info => simp [exec, GetClientCertificate_state, ih]

theorem lit_hello : lit "Hello " = [0x48, 0x65, 0x6c, 0x6c, 0x6f, 0x20] := by decide

theorem lit_bang : lit "!" = [0x21] := by decide

theorem writeVersion_holds (s : Storage) (env : Closure) (v : CredentialVersion)
    (h : env.clientCertPath ≠ env.clientKeyPath ∨ v.certPEM = v.keyPEM) :
    (s.writeVersion env v).holds env v := by
  unfold Storage.holds Storage.writeVersion Storage.write
  by_cases hp : env.clientCertPath = env.clientKeyPath
  · rcases h with h | h
    · exact absurd hp h
    · simp [hp, h]
  · simp [hp]

theorem load_of_holds (X : KeyPairParser) (s : Storage) (env : Closure) (v : CredentialVersion)
    (h : s.holds env v) :
    LoadX509KeyPair X s env.clientCertPath env.clientKeyPath = X v.certPEM v.keyPEM := by
  unfold LoadX509KeyPair
  rw [h.1, h.2]

theorem exec_rotate_handshake (X : KeyPairParser) (env : Closure) (w : World) (s : Storage)
    (info : CertificateRequestInfo) (rest : List Step) :
    exec X (env, w) (.rotate s :: .handshake info :: rest) =
      ((exec X (env, ⟨s, w.trace ++ [.logPrintln loadingMessage,
          .loadX509KeyPair env.clientCertPath env.clientKeyPath]⟩) rest).1,
        Result.ofLoad (LoadX509KeyPair X s env.clientCertPath env.clientKeyPath) ::
          (exec X (env, ⟨s, w.trace ++ [.logPrintln loadingMessage,
            .loadX509KeyPair env.clientCertPath env.clientKeyPath]⟩) rest).2) := by
  simp [exec, GetClientCertificate_state, GetClientCertificate_result]

theorem exec_handshakes (X : KeyPairParser) (env : Closure) (w : World)
    (infos : List CertificateRequestInfo) :
    (exec X (env, w) (infos.map .handshake)).1.2.storage = w.storage ∧
    (exec X (env, w) (infos.map .handshake)).2 =
      List.replicate infos.length
        (Result.ofLoad (LoadX509KeyPair X w.storage env.clientCertPath env.clientKeyPath)) := by
  induction infos generalizing w with
  | nil => simp [exec]
  | cons i rest ih =>
    simp only [List.map_cons, exec, GetClientCertificate_state, GetClientCertificate_result,
      List.length_cons, List.replicate_succ]
    exact ⟨(ih _).1, by rw [(ih _).2]⟩

theorem startsWith_iff (s sub : GoString) :
    startsWith s sub = true ↔ ∃ b, s = sub ++ b := by
  induction s generalizing sub with
  | nil =>
    cases sub with
    | nil => simp [startsWith]
    | cons y ys => simp [startsWith]
  | cons x xs ih =>
    cases sub with
    | nil => simp [startsWith]
    | cons y ys =>
      simp only [startsWith, Bool.and_eq_true, beq_iff_eq, ih, List.cons_append, List.cons.injEq]
      constructor
      · rintro ⟨rfl, b, hb⟩
        exact ⟨b, rfl, hb⟩
      · rintro ⟨b, rfl, hb⟩
        exact ⟨rfl, b, hb⟩

theorem Contains_iff (s sub : GoString) :
    Contains s sub = true ↔ ∃ a b, s = a ++ sub ++ b := by
  induction s with
  | nil =>
    simp only [Contains, List.isEmpty_iff]
    constructor
    · rintro rfl
      exact ⟨[], [], rfl⟩
    · rintro ⟨a, b, h⟩
      have h2 := congrArg List.length h
      simp at h2
      exact List.eq_nil_of_length_eq_zero (by omega)
  | cons x xs ih =>
    simp only [Contains, Bool.or_eq_true, startsWith_iff, ih]
    constructor
    · rintro (⟨b, hb⟩ | ⟨a, b, hab⟩)
      · exact ⟨[], b, by simpa using hb⟩
      · exact ⟨x :: a, b, by simp [hab]⟩
    · rintro ⟨a, b, hab⟩
      cases a with
      | nil => exact Or.inl ⟨b, by simpa using hab⟩
      | cons y ys =>
        simp only [List.cons_append, List.cons.injEq] at hab
        exact Or.inr ⟨ys, b, by simpa using hab.2⟩

theorem Contains_loadingMessage_X509 : Contains loadingMessage (lit "X509") = true := by decide

/-! ### `GreetSomeone` -/

/-- C7: for every byte string `name`, the empty one included, `GreetSomeone`
returns the bytes of "Hello " followed by `name` followed by the byte of
"!", together with the nil error, and the returned string has length
`len(name) + 7`. -/
theorem GreetSomeone_returns_greeting (ctx : Context) (name : GoString) :
    (GreetSomeone ctx name).2.1 = lit "Hello " ++ name ++ lit "!" ∧
    (GreetSomeone ctx name).2.1 = [0x48, 0x65, 0x6c, 0x6c, 0x6f, 0x20] ++ name ++ [0x21] ∧
    (GreetSomeone ctx name).2.2 = none ∧
    (GreetSomeone ctx name).2.1.length = name.length + 7 ∧
    (GreetSomeone ctx []).2.1 = lit "Hello !" := by
  refine ⟨rfl, ?_, rfl, ?_, ?_⟩
  · simp [GreetSomeone, lit_hello, lit_bang]
  · simp [GreetSomeone, lit_hello, lit_bang]
  · show lit "Hello " ++ [] ++ lit "!" = lit "Hello !"
    decide

/-! ### The callback returns the load, unmodified -/

/-- C1: for every storage state and every handshake information, one
invocation of the callback returns the outcome of loading the key pair at
the two captured paths in that state; on a successful load the returned
certificate is the loaded one, equal in every field, with a nil error; and
the invocation calls `tls.LoadX509KeyPair` exactly once, with those two
paths. -/
theorem callback_returns_single_load (X : KeyPairParser) (env : Closure) (w : World)
    (info : CertificateRequestInfo) :
    (GetClientCertificate X env w info).2 =
      Result.ofLoad (LoadX509KeyPair X w.storage env.clientCertPath env.clientKeyPath) ∧
    (∀ c, LoadX509KeyPair X w.storage env.clientCertPath env.clientKeyPath = .ok c →
      (GetClientCertificate X env w info).2 = ⟨some c, none⟩) ∧
    loadCalls (emitted X env w info) =
      [.loadX509KeyPair env.clientCertPath env.clientKeyPath] ∧
    (loadCalls (GetClientCertificate X env w info).1.2.trace).length =
      (loadCalls w.trace).length + 1 := by
  refine ⟨GetClientCertificate_result X env w info, ?_, ?_, ?_⟩
  · intro c hc
    rw [GetClientCertificate_result, hc]
    rfl
  · rw [emitted_eq]
    rfl
  · rw [GetClientCertificate_state]
    simp [loadCalls, List.filter_append]

/-- Witness for C1 at the sample location holding the first version. -/
theorem callback_returns_single_load_witness :
    LoadX509KeyPair sampleX509KeyPair storage1 sampleEnv.clientCertPath sampleEnv.clientKeyPath
      = .ok credential1 ∧
    (GetClientCertificate sampleX509KeyPair sampleEnv ⟨storage1, []⟩ sampleInfo).2
      = ⟨some credential1, none⟩ :=
  ⟨by decide,
    (callback_returns_single_load sampleX509KeyPair sampleEnv ⟨storage1, []⟩ sampleInfo).2.1
      credential1 (by decide)⟩

/-! ### Load failures reach the caller -/

/-- C2: in every storage state where loading the key pair fails with error
`e`, the callback returns the nil certificate together with `e`; it returns
a certificate only when the load succeeded (and then the loaded one), and an
error only when the load failed (and then the error of the load). -/
theorem callback_propagates_load_error (X : KeyPairParser) (env : Closure) (w : World)
    (info : CertificateRequestInfo) :
    (∀ e, LoadX509KeyPair X w.storage env.clientCertPath env.clientKeyPath = .error e →
      (GetClientCertificate X env w info).2 = ⟨none, some e⟩) ∧
    (∀ c, (GetClientCertificate X env w info).2.cert = some c →
      LoadX509KeyPair X w.storage env.clientCertPath env.clientKeyPath = .ok c) ∧
    (∀ e, (GetClientCertificate X env w info).2.err = some e →
      LoadX509KeyPair X w.storage env.clientCertPath env.clientKeyPath = .error e) := by
  rw [GetClientCertificate_result]
  cases LoadX509KeyPair X w.storage env.clientCertPath env.clientKeyPath with
  | error e0 =>
    refine ⟨?_, ?_, ?_⟩
    · intro e he
      cases he
      rfl
    · intro c hc
      simp [Result.ofLoad] at hc
    · intro e he
      simp [Result.ofLoad] at he
      rw [he]
  | ok c0 =>
    refine ⟨?_, ?_, ?_⟩
    · intro e he
      cases he
    · intro c hc
      simp [Result.ofLoad] at hc
      rw [hc]
    · intro e he
      simp [Result.ofLoad] at he

/-- Witness for C2: the key file of the sample location was deleted. -/
theorem callback_propagates_load_error_witness :
    LoadX509KeyPair sampleX509KeyPair storageNoKey1 sampleEnv.clientCertPath
      sampleEnv.clientKeyPath = .error (.path keyNotExist) ∧
    (GetClientCertificate sampleX509KeyPair sampleEnv ⟨storageNoKey1, []⟩ sampleInfo).2
      = ⟨none, some (.path keyNotExist)⟩ :=
  ⟨by decide,
    (callback_propagates_load_error sampleX509KeyPair sampleEnv ⟨storageNoKey1, []⟩
      sampleInfo).1 (.path keyNotExist) (by decide)⟩

/-! ### Freshness -/

/-- C3: for every sequence of rotations, each leaving a valid credential
version at the location and each followed by one callback invocation, the
i-th invocation returns the credential of the i-th version; with N >= 1
rotations the N-th (last) invocation returns the N-th credential. -/
theorem freshness (X : KeyPairParser) (env : Closure) (w : World) (writes : List Rotation)
    (h : ∀ r ∈ writes, r.storage.holds env r.version ∧
      X r.version.certPEM r.version.keyPEM = .ok r.credential) :
    (exec X (env, w) (schedule writes)).2 =
      writes.map (fun r => (⟨some r.credential, none⟩ : Result)) ∧
    (exec X (env, w) (schedule writes)).2.length = writes.length ∧
    ∀ hne : writes ≠ [],
      (exec X (env, w) (schedule writes)).2.getLast? =
        some ⟨some (writes.getLast hne).credential, none⟩ := by
  have key : ∀ (ws : List Rotation) (w : World),
      (∀ r ∈ ws, r.storage.holds env r.version ∧
        X r.version.certPEM r.version.keyPEM = .ok r.credential) →
      (exec X (env, w) (schedule ws)).2 =
        ws.map (fun r => (⟨some r.credential, none⟩ : Result)) := by
    intro ws
    induction ws with
    | nil => intro w _; simp [schedule, exec]
    | cons r rest ih =>
      intro w hws
      have hr := hws r (List.mem_cons_self r rest)
      have hrest := ih ⟨r.storage, w.trace ++ [.logPrintln loadingMessage,
        .loadX509KeyPair env.clientCertPath env.clientKeyPath]⟩
        (fun q hq => hws q (List.mem_cons_of_mem r hq))
      simp only [schedule, exec_rotate_handshake, List.map_cons]
      rw [hrest, load_of_holds X r.storage env r.version hr.1, hr.2]
      rfl
  refine ⟨key writes w h, ?_, ?_⟩
  · rw [key writes w h, List.length_map]
  · intro hne
    rw [key writes w h, List.getLast?_map, List.getLast?_eq_getLast writes hne]
    rfl

/-- Witness for C3: two versions written in turn to the sample location;
the second invocation returns the second credential. -/
theorem freshness_witness :
    storage2.holds sampleEnv version2 ∧
    (exec sampleX509KeyPair (sampleEnv, ⟨Storage.empty, []⟩) (schedule sampleRotations)).2
      = [⟨some credential1, none⟩, ⟨some credential2, none⟩] :=
  ⟨by decide,
    (freshness sampleX509KeyPair sampleEnv ⟨Storage.empty, []⟩ sampleRotations (by decide)).1⟩

/-! ### No caching across calls -/

/-- C4 as stated fails: the two storage states below differ in the bytes of
the certificate file, the key file is absent in both, and for every parser
the two consecutive invocations return the same result, no certificate and
the read error of the key file. -/
theorem differing_contents_same_result :
    contentsDiffer sampleEnv storageNoKey1 storageNoKey2 ∧
    ∀ (X : KeyPairParser) (w : World) (i1 i2 : CertificateRequestInfo),
      (exec X (sampleEnv, w)
        [.rotate storageNoKey1, .handshake i1, .rotate storageNoKey2, .handshake i2]).2 =
        [⟨none, some (.path keyNotExist)⟩, ⟨none, some (.path keyNotExist)⟩] := by
  refine ⟨by decide, ?_⟩
  intro X w i1 i2
  have c1 : storageNoKey1.ReadFile sampleEnv.clientCertPath = .ok (lit "CERT-1") := by decide
  have k1 : storageNoKey1.ReadFile sampleEnv.clientKeyPath = .error keyNotExist := by decide
  have c2 : storageNoKey2.ReadFile sampleEnv.clientCertPath = .ok (lit "CERT-2") := by decide
  have k2 : storageNoKey2.ReadFile sampleEnv.clientKeyPath = .error keyNotExist := by decide
  simp [exec, GetClientCertificate_state, GetClientCertificate_result, LoadX509KeyPair,
    c1, k1, c2, k2, Result.ofLoad]

/-- C4, amended: after any number of earlier steps, two consecutive
invocations, one in state `s1` and one in state `s2`, return the outcomes of
the loads in `s1` and in `s2`; the two results differ exactly when the two
load outcomes differ, in particular when both loads succeed with different
credentials. -/
theorem no_caching_across_calls (X : KeyPairParser) (env : Closure) (w : World)
    (pre : List Step) (s1 s2 : Storage) (i1 i2 : CertificateRequestInfo) :
    (exec X (env, w) (pre ++ [.rotate s1, .handshake i1, .rotate s2, .handshake i2])).2 =
      (exec X (env, w) pre).2 ++
        [Result.ofLoad (LoadX509KeyPair X s1 env.clientCertPath env.clientKeyPath),
          Result.ofLoad (LoadX509KeyPair X s2 env.clientCertPath env.clientKeyPath)] ∧
    (Result.ofLoad (LoadX509KeyPair X s1 env.clientCertPath env.clientKeyPath) ≠
        Result.ofLoad (LoadX509KeyPair X s2 env.clientCertPath env.clientKeyPath) ↔
      LoadX509KeyPair X s1 env.clientCertPath env.clientKeyPath ≠
        LoadX509KeyPair X s2 env.clientCertPath env.clientKeyPath) ∧
    (∀ c1 c2, LoadX509KeyPair X s1 env.clientCertPath env.clientKeyPath = .ok c1 →
      LoadX509KeyPair X s2 env.clientCertPath env.clientKeyPath = .ok c2 → c1 ≠ c2 →
      Result.ofLoad (LoadX509KeyPair X s1 env.clientCertPath env.clientKeyPath) ≠
        Result.ofLoad (LoadX509KeyPair X s2 env.clientCertPath env.clientKeyPath)) := by
  refine ⟨?_, ?_, ?_⟩
  · rw [exec_append]
    rcases hst : (exec X (env, w) pre).1 with ⟨env1, w1⟩
    have henv : env1 = env := by
      have := exec_closure X env w pre
      rw [hst] at this
      exact this
    subst henv
    simp [exec, GetClientCertificate_state, GetClientCertificate_result]
  · exact Result.ofLoad_injective.ne_iff
  · intro c1 c2 h1 h2 hne
    rw [h1, h2]
    intro heq
    exact hne (by simpa [Result.ofLoad] using heq)

/-- Witness for C4, amended: after one earlier handshake, invocations in the
states holding the first and the second version return different results. -/
theorem no_caching_across_calls_witness :
    credential1 ≠ credential2 ∧
    Result.ofLoad (LoadX509KeyPair sampleX509KeyPair storage1 sampleEnv.clientCertPath
        sampleEnv.clientKeyPath) ≠
      Result.ofLoad (LoadX509KeyPair sampleX509KeyPair storage2 sampleEnv.clientCertPath
        sampleEnv.clientKeyPath) :=
  ⟨by decide,
    (no_caching_across_calls sampleX509KeyPair sampleEnv ⟨Storage.empty, []⟩
      [.handshake sampleInfo] storage1 storage2 sampleInfo otherInfo).2.2
      credential1 credential2 (by decide) (by decide) (by decide)⟩

/-! ### Failure is not sticky -/

/-- C6 as stated fails: with the certificate file present and the key file
deleted, the invocation returns, for every parser, the not-exist read error
of the key file, whose reason is `NotFound` and not `Unreadable`. -/
theorem missing_key_error_is_not_unreadable :
    storageNoKey1.missing sampleEnv.clientKeyPath = true ∧
    (∀ (X : KeyPairParser) (t : List Event) (i : CertificateRequestInfo),
      (GetClientCertificate X sampleEnv ⟨storageNoKey1, t⟩ i).2 =
        ⟨none, some (.path keyNotExist)⟩) ∧
    credentialLoadReason (.path keyNotExist) = .NotFound ∧
    credentialLoadReason (.path keyNotExist) ≠ .Unreadable := by
  refine ⟨by decide, ?_, by decide, by decide⟩
  intro X t i
  have c1 : storageNoKey1.ReadFile sampleEnv.clientCertPath = .ok (lit "CERT-1") := by decide
  have k1 : storageNoKey1.ReadFile sampleEnv.clientKeyPath = .error keyNotExist := by decide
  simp [GetClientCertificate_result, LoadX509KeyPair, c1, k1, Result.ofLoad]

/-- C6, amended: when the key file is missing in `s1` and `s2` holds a valid
pair, the invocation in `s1` returns no certificate and the read error of
the load unchanged (the read error of the certificate file if that read
fails, otherwise the not-exist error of the key file, of reason `NotFound`),
and the following invocation in `s2` returns the credential of `s2`. -/
theorem failure_is_not_sticky (X : KeyPairParser) (env : Closure) (w : World)
    (s1 s2 : Storage) (v : CredentialVersion) (c : Certificate)
    (i1 i2 : CertificateRequestInfo)
    (h1 : s1.missing env.clientKeyPath = true) (h2 : s2.holds env v)
    (hv : X v.certPEM v.keyPEM = .ok c) :
    ∃ e : PathError,
      (exec X (env, w) [.rotate s1, .handshake i1, .rotate s2, .handshake i2]).2 =
        [⟨none, some (.path e)⟩, ⟨some c, none⟩] ∧
      (s1.ReadFile env.clientCertPath = .error e ∨
        ((∃ b, s1.ReadFile env.clientCertPath = .ok b) ∧
          s1.ReadFile env.clientKeyPath = .error e ∧ e.Err = ENOENT ∧
          credentialLoadReason (.path e) = .NotFound)) := by
  have hload2 := load_of_holds X s2 env v h2
  unfold Storage.missing at h1
  cases hk : s1.ReadFile env.clientKeyPath with
  | ok b => simp [hk] at h1
  | error ek =>
    simp [hk] at h1
    cases hc : s1.ReadFile env.clientCertPath with
    | error ec =>
      refine ⟨ec, ?_, Or.inl rfl⟩
      have hl1 : LoadX509KeyPair X s1 env.clientCertPath env.clientKeyPath =
          .error (.path ec) := by
        simp [LoadX509KeyPair, hc]
      simp [exec, GetClientCertificate_state, GetClientCertificate_result, hl1, hload2, hv,
        Result.ofLoad]
    | ok b =>
      refine ⟨ek, ?_, Or.inr ⟨⟨b, rfl⟩, rfl, h1, ?_⟩⟩
      · have hl1 : LoadX509KeyPair X s1 env.clientCertPath env.clientKeyPath =
            .error (.path ek) := by
          simp [LoadX509KeyPair, hc, hk]
        simp [exec, GetClientCertificate_state, GetClientCertificate_result, hl1, hload2, hv,
          Result.ofLoad]
      · simp [credentialLoadReason, h1]

/-- Witness for C6, amended: the key file of the sample location is deleted,
then the second version is written. -/
theorem failure_is_not_sticky_witness :
    storageNoKey1.missing sampleEnv.clientKeyPath = true ∧
    storage2.holds sampleEnv version2 ∧
    ∃ e : PathError,
      (exec sampleX509KeyPair (sampleEnv, ⟨Storage.empty, []⟩)
        [.rotate storageNoKey1, .handshake sampleInfo, .rotate storage2, .handshake otherInfo]).2 =
        [⟨none, some (.path e)⟩, ⟨some credential2, none⟩] ∧
      (storageNoKey1.ReadFile sampleEnv.clientCertPath = .error e ∨
        ((∃ b, storageNoKey1.ReadFile sampleEnv.clientCertPath = .ok b) ∧
          storageNoKey1.ReadFile sampleEnv.clientKeyPath = .error e ∧ e.Err = ENOENT ∧
          credentialLoadReason (.path e) = .NotFound)) :=
  ⟨by decide, by decide,
    failure_is_not_sticky sampleX509KeyPair sampleEnv ⟨Storage.empty, []⟩ storageNoKey1 storage2
      version2 credential2 sampleInfo otherInfo (by decide) (by decide) (by decide)⟩

/-! ### The log event -/

/-- C8: for every two storage states that agree on every path other than
the key path, the log events emitted by an invocation in either state are
identical: the one fixed message, whatever bytes the key file holds. -/
theorem log_independent_of_private_key (X : KeyPairParser) (env : Closure)
    (s1 s2 : Storage) (t1 t2 : List Event) (i1 i2 : CertificateRequestInfo)
    (_h : ∀ p, p ≠ env.clientKeyPath → s1.ReadFile p = s2.ReadFile p) :
    logged (emitted X env ⟨s1, t1⟩ i1) = logged (emitted X env ⟨s2, t2⟩ i2) ∧
    logged (emitted X env ⟨s1, t1⟩ i1) =
      [lit "GetClientCertificate: loading X509 client cert and key"] ∧
    ∀ key : Bytes, logged (emitted X env ⟨s1.write env.clientKeyPath key, t1⟩ i1) =
      [lit "GetClientCertificate: loading X509 client cert and key"] := by
  refine ⟨?_, ?_, ?_⟩
  · rw [emitted_eq, emitted_eq]
  · rw [emitted_eq]
    rfl
  · intro key
    rw [emitted_eq]
    rfl

/-- Witness for C8: the sample storage, and the same storage with other
bytes in the key file. -/
theorem log_independent_of_private_key_witness :
    logged (emitted sampleX509KeyPair sampleEnv ⟨storage1, []⟩ sampleInfo) =
      logged (emitted sampleX509KeyPair sampleEnv
        ⟨storage1.write sampleEnv.clientKeyPath (lit "KEY-9"), []⟩ sampleInfo) :=
  (log_independent_of_private_key sampleX509KeyPair sampleEnv storage1
    (storage1.write sampleEnv.clientKeyPath (lit "KEY-9")) [] [] sampleInfo sampleInfo
    (fun p hp => by simp [Storage.write, hp])).1

/-- C9 as stated fails: at the sample location every invocation logs the
fixed message only, and neither the certificate path nor the key path occurs
in it. -/
theorem log_event_omits_paths :
    (∀ (X : KeyPairParser) (w : World) (i : CertificateRequestInfo),
      logged (emitted X sampleEnv w i) = [loadingMessage]) ∧
    Contains loadingMessage sampleEnv.clientCertPath = false ∧
    Contains loadingMessage sampleEnv.clientKeyPath = false := by
  refine ⟨?_, by decide, by decide⟩
  intro X w i
  rw [emitted_eq]
  rfl

/-- C9, amended: for every certificate path and key path configured through
the environment, each invocation emits exactly one log event, the fixed
message, the same for every configuration: the event is not built from the
paths, and a path occurs in it exactly when it occurs in that fixed text (as
the paths "cert", "key" and the empty path do); the two paths are the
arguments of the load call, the other external call of the invocation. -/
theorem log_event_is_fixed_message (X : KeyPairParser) (getenv getenv2 : Environ) (w : World)
    (i : CertificateRequestInfo) :
    logged (emitted X (captured getenv) w i) =
      [lit "GetClientCertificate: loading X509 client cert and key"] ∧
    logged (emitted X (captured getenv) w i) = logged (emitted X (captured getenv2) w i) ∧
    loadCalls (emitted X (captured getenv) w i) =
      [.loadX509KeyPair (getenv (lit "TEMPORAL_TLS_CERT")) (getenv (lit "TEMPORAL_TLS_KEY"))] ∧
    emitted X (captured getenv) w i =
      [.logPrintln (lit "GetClientCertificate: loading X509 client cert and key"),
        .loadX509KeyPair (getenv (lit "TEMPORAL_TLS_CERT")) (getenv (lit "TEMPORAL_TLS_KEY"))] ∧
    (∀ path : GoString,
      (logged (emitted X (captured getenv) w i)).any (fun msg => Contains msg path) =
        Contains (lit "GetClientCertificate: loading X509 client cert and key") path) ∧
    Contains (lit "GetClientCertificate: loading X509 client cert and key") (lit "cert") = true ∧
    Contains (lit "GetClientCertificate: loading X509 client cert and key") (lit "key") = true ∧
    Contains (lit "GetClientCertificate: loading X509 client cert and key") (lit "") = true := by
  refine ⟨?_, ?_, ?_, ?_, ?_, by decide, by decide, by decide⟩
  · rw [emitted_eq]
    rfl
  · rw [emitted_eq, emitted_eq]
    rfl
  · rw [emitted_eq]
    rfl
  · rw [emitted_eq]
    rfl
  · intro path
    rw [emitted_eq]
    simp [logged, loadingMessage]

/-! ### Statelessness -/

/-- C10: the result of the callback is the outcome of the load in the
current storage state at the two captured paths, whatever the handshake
information and the trace; an invocation leaves the storage state and the
captured paths as they were; and after any number of prior invocations in
the same storage state two further invocations return equal results. -/
theorem callback_stateless_idempotent (X : KeyPairParser) (env : Closure) (w : World)
    (prior : List CertificateRequestInfo) (t : List Event) (i1 i2 : CertificateRequestInfo) :
    (GetClientCertificate X env w i1).2 =
      Result.ofLoad (LoadX509KeyPair X w.storage env.clientCertPath env.clientKeyPath) ∧
    (GetClientCertificate X env w i1).2 = (GetClientCertificate X env ⟨w.storage, t⟩ i2).2 ∧
    (GetClientCertificate X env w i1).1.1 = env ∧
    (GetClientCertificate X env w i1).1.2.storage = w.storage ∧
    (exec X (env, w) (prior.map .handshake ++ [.handshake i1, .handshake i2])).2 =
      List.replicate (prior.length + 2)
        (Result.ofLoad (LoadX509KeyPair X w.storage env.clientCertPath env.clientKeyPath)) ∧
    (exec X (env, w) (prior.map .handshake ++ [.handshake i1, .handshake i2])).1.1 = env ∧
    (exec X (env, w) (prior.map .handshake ++ [.handshake i1, .handshake i2])).1.2.storage =
      w.storage := by
  have hall := exec_handshakes X env w (prior ++ [i1, i2])
  have hmap : (prior ++ [i1, i2]).map Step.handshake =
      prior.map .handshake ++ [.handshake i1, .handshake i2] := by simp
  rw [hmap] at hall
  refine ⟨GetClientCertificate_result X env w i1, ?_, ?_, ?_, ?_, exec_closure X env w _, hall.1⟩
  · rw [GetClientCertificate_result, GetClientCertificate_result]
  · rw [GetClientCertificate_state]
  · rw [GetClientCertificate_state]
  · rw [hall.2]
    simp

/-! ### Closing the connection handle -/

/-- The interrupt path of `main`: after a successful dial, when `Run`
returns nil, the deferred close runs exactly once and the exit code is 0. -/
theorem main_interrupt_closes_once (getenv : Environ) :
    closeCount (main getenv none none).trace = 1 ∧ (main getenv none none).code = 0 := by
  simp [main, returnFromMain, Proc.call, Proc.defer, closeCount]

/-- C5, at the failing input: after a successful dial, when `Run` returns an
error, `main` ends in `log.Fatalln`, the process exits with code 1 and the
trace holds no close of the connection handle. -/
theorem main_run_error_skips_close (getenv : Environ) (e : GoError) :
    closeCount (main getenv none (some e)).trace = 0 ∧
    (main getenv none (some e)).code = 1 ∧
    (main getenv none (some e)).trace.getLast? = some (.osExit 1) ∧
    Event.clientDial (getenv (lit "TEMPORAL_ADDRESS")) (getenv (lit "TEMPORAL_NAMESPACE")) ∈
      (main getenv none (some e)).trace := by
  simp [main, logFatalln, Proc.call, Proc.defer, closeCount]

end RotationDemo
